import Mathlib

/-!
Verification of the Deno text-to-speech backend (src/server.ts, and the
non-auth variants in src/unnamed/part_000) against its specification.

The server's pure logic is shallowly embedded below. Stateful pieces
(the nonce map) are modelled by explicit state passing; the external
collaborators (the Deepgram SDK, the jose JWT library, the filesystem)
are modelled as abstract outcome parameters, since only the server's own
handling of their results is repository code. Times are milliseconds as
natural numbers, mirroring Date.now().
-/

namespace DenoTts

/-! ## Input validation (validateTtsInput, src/server.ts lines 189-197) -/

/-- Code points treated as whitespace by the JS String.prototype.trim
call inside validateTtsInput (ECMAScript WhiteSpace and LineTerminator). -/
def jsIsWhitespace (c : Char) : Bool :=
  [9, 10, 11, 12, 13, 32, 160, 5760, 8232, 8233, 8239, 8287, 12288, 65279].contains c.toNat
    || (8192 ≤ c.toNat && c.toNat ≤ 8202)

/-- Embedding of the JS text.trim() call: strip whitespace from both ends. -/
def jsTrim (s : String) : String :=
  String.mk (((s.data.dropWhile jsIsWhitespace).reverse.dropWhile jsIsWhitespace).reverse)

/-- Embeds validateTtsInput (src/server.ts lines 189-197). A missing field
is `none`; the JS guard `!text` is also true for the empty string, so the
empty string takes the "required" branch, not the "cannot be empty" one. -/
def validateTtsInput : Option String → Option String
  | none => some "text field is required and must be a string"
  | some t =>
    if t = "" then some "text field is required and must be a string"
    else if (jsTrim t).length = 0 then some "text cannot be empty"
    else none

/-! ## Nonce store (src/server.ts lines 54-87) -/

/-- The sessionNonces Map: nonce value to expiry time in ms. -/
abbrev NonceStore := List (String × Nat)

/-- Map.get: first (unique) entry for the key. -/
def lookupNonce (s : NonceStore) (n : String) : Option Nat :=
  (s.find? fun p => p.fst == n).map Prod.snd

/-- Map.delete: remove the entry for the key. -/
def eraseNonce (s : NonceStore) (n : String) : NonceStore :=
  s.filter fun p => p.fst != n

/-- Map.set: replace any entry for the key. -/
def setNonce (s : NonceStore) (n : String) (e : Nat) : NonceStore :=
  eraseNonce s n ++ [(n, e)]

/-- NONCE_TTL_MS = 5 * 60 * 1000 (src/server.ts line 59). -/
def NONCE_TTL_MS : Nat := 5 * 60 * 1000

/-- Embeds consumeNonce (src/server.ts lines 74-79). The JS guard
`if (!expiry) return false` fires both when the nonce is absent and when
the stored expiry is the falsy number 0 (never produced by the code,
which always stores now + NONCE_TTL_MS); in those cases the store is
left untouched. Otherwise the entry is deleted unconditionally and the
result is `now < expiry`. -/
def consumeNonce (s : NonceStore) (n : String) (now : Nat) : Bool × NonceStore :=
  match lookupNonce s n with
  | none => (false, s)
  | some e => if e = 0 then (false, s) else (decide (now < e), eraseNonce s n)

/-- The periodic sweep (src/server.ts lines 82-87) and the opportunistic
sweep in handleServeIndex: delete every entry whose expiry has passed. -/
def sweepNonces (s : NonceStore) (now : Nat) : NonceStore :=
  s.filter fun p => decide (now < p.snd)

/-- The operations that mutate the nonce store during the server's life:
registration of a fresh nonce at page-serve time, the periodic sweep,
and consumption attempts. -/
inductive NonceOp
  | register (n : String) (now : Nat)
  | sweep (now : Nat)
  | consume (n : String) (now : Nat)

/-- State transition of the nonce store under one operation. -/
def applyNonceOp (s : NonceStore) : NonceOp → NonceStore
  | .register n now => setNonce s n (now + NONCE_TTL_MS)
  | .sweep now => sweepNonces s now
  | .consume n now => (consumeNonce s n now).snd

/-- Whether an operation re-registers the given nonce value. -/
def registersNonce (m : String) : NonceOp → Bool
  | .register n _ => n == m
  | _ => false

/-- Every entry for nonce m in the store is already expired at time t. -/
def deadAt (m : String) (t : Nat) (s : NonceStore) : Prop :=
  ∀ p ∈ s, p.fst = m → p.snd ≤ t

/-- Invariant of every reachable store: keys are the 32-hex-digit output
of generateNonce (in particular non-empty) and expiries are
creation time + NONCE_TTL_MS (in particular positive). -/
def wellFormedStore (s : NonceStore) : Prop :=
  ∀ p ∈ s, p.fst ≠ "" ∧ 0 < p.snd

/-! ## Session token verification (src/server.ts lines 111-118) -/

/-- Embeds verifySessionToken: the jose.jwtVerify call (external library
performing the signature and expiry checks) is abstracted as an Except
outcome; the repository code is exactly the try/catch wrapper mapping
success to true and any thrown failure to false. -/
def verifySessionToken (r : Except String Unit) : Bool :=
  match r with
  | .ok _ => true
  | .error _ => false

/-! ## Responses, CORS, error formatting -/

/-- The observable parts of a Response the spec talks about. -/
structure ResponseM where
  status : Nat
  headers : List (String × String)
  audio : Option (List Nat)
  errType : Option String
  errCode : Option String
  errMessage : Option String
  tokenIssued : Bool
  deriving DecidableEq

/-- getCorsHeaders (src/server.ts lines 159-165): wildcard-origin variant. -/
def corsHeaders : List (String × String) :=
  [("Access-Control-Allow-Origin", "*"),
   ("Access-Control-Allow-Methods", "GET, POST, OPTIONS"),
   ("Access-Control-Allow-Headers", "Content-Type, Authorization, X-Session-Nonce")]

/-- A response carries the CORS headers when all three are present. -/
def hasCors (r : ResponseM) : Bool :=
  corsHeaders.all fun p => decide (p ∈ r.headers)

/-- Embeds formatErrorResponse (src/server.ts lines 202-222): the error
type is derived from the status code alone (400 means ValidationError,
anything else SynthesisError); the JS `code ||` and `error.message ||`
defaults also fire on the falsy empty string. -/
def formatErrorResponse (message : String) (statusCode : Nat) (code : Option String) : ResponseM :=
  { status := statusCode
    headers := corsHeaders
    audio := none
    errType := some (if statusCode = 400 then "ValidationError" else "SynthesisError")
    errCode := some (match code with
      | some c =>
        if c = "" then (if statusCode = 400 then "INVALID_INPUT" else "SYNTHESIS_FAILED") else c
      | none => if statusCode = 400 then "INVALID_INPUT" else "SYNTHESIS_FAILED")
    errMessage := some (if message = "" then "An error occurred during synthesis" else message)
    tokenIssued := false }

/-! ## Length-heuristic error classification (src/server.ts lines 355-367) -/

/-- ASCII lower-casing as performed by toLowerCase on the messages at hand. -/
def lowerChar (c : Char) : Char :=
  if 'A' ≤ c ∧ c ≤ 'Z' then Char.ofNat (c.toNat + 32) else c

/-- Embedding of errorMsg = error.message.toLowerCase(). -/
def toLowerStr (s : String) : String :=
  String.mk (s.data.map lowerChar)

/-- JS String.prototype.includes: sub occurs contiguously in s. -/
def strContainsSub (s sub : String) : Bool :=
  (List.range (s.data.length + 1)).any fun i => sub.data.isPrefixOf (s.data.drop i)

/-- The text-length heuristic of the catch block (lines 361-362). -/
def lengthHeuristic (msg : String) : Bool :=
  let m := toLowerStr msg
  strContainsSub m "too long" || strContainsSub m "length"
    || strContainsSub m "limit" || strContainsSub m "exceed"

/-- The catch block of handleSynthesis (lines 355-367): reclassify
length-looking errors as 400 TEXT_TOO_LONG, otherwise default 500. -/
def classifySynthesisError (msg : String) : ResponseM :=
  if lengthHeuristic msg then formatErrorResponse msg 400 (some "TEXT_TOO_LONG")
  else formatErrorResponse msg 500 none

/-! ## Stream concatenation (src/server.ts lines 330-354) -/

/-- Uint8Array.prototype.set: overwrite arr at offset off with chunk. -/
def writeAt (arr chunk : List Nat) (off : Nat) : List Nat :=
  arr.take off ++ chunk ++ arr.drop (off + chunk.length)

/-- The copy loop (lines 342-346): write each chunk at the running offset. -/
def concatFill : List Nat → Nat → List (List Nat) → List Nat
  | arr, _, [] => arr
  | arr, off, c :: cs => concatFill (writeAt arr c off) (off + c.length) cs

/-- totalLength (line 340): chunks.reduce((acc, chunk) => acc + chunk.length, 0). -/
def totalLengthOf (chunks : List (List Nat)) : Nat :=
  chunks.foldl (fun acc c => acc + c.length) 0

/-- The audioData buffer: a zero buffer of totalLength filled by the copy loop. -/
def audioDataOf (chunks : List (List Nat)) : List Nat :=
  concatFill (List.replicate (totalLengthOf chunks) 0) 0 chunks

/-- Outcome of the Deepgram speak request as observed by handleSynthesis:
a stream delivering a finite ordered chunk sequence, no stream at all,
or a thrown error with a message. -/
inductive ProviderOutcome
  | stream (chunks : List (List Nat))
  | noStream
  | throwErr (msg : String)

/-- Embeds handleSynthesis (src/server.ts lines 298-368) after body
parsing: validation, the success path building the concatenated audio
response, the thrown no-stream error, and the catch-block classification. -/
def handleSynthesis (text : Option String) (provider : ProviderOutcome) : ResponseM :=
  match validateTtsInput text with
  | some msg => formatErrorResponse msg 400 (some "INVALID_INPUT")
  | none =>
    match provider with
    | .stream chunks =>
      { status := 200
        headers := ("content-type", "application/octet-stream") :: corsHeaders
        audio := some (audioDataOf chunks)
        errType := none
        errCode := none
        errMessage := none
        tokenIssued := false }
    | .noStream => classifySynthesisError "No audio stream returned from Deepgram"
    | .throwErr msg => classifySynthesisError msg

/-! ## Session issuance and auth (src/server.ts lines 255-288) -/

/-- Successful session issuance: 200 with a token payload. -/
def tokenResponse : ResponseM :=
  { status := 200, headers := corsHeaders, audio := none,
    errType := none, errCode := none, errMessage := none, tokenIssued := true }

/-- The 403 nonce-gate failure of handleGetSession. -/
def invalidNonceResponse : ResponseM :=
  { status := 403, headers := corsHeaders, audio := none,
    errType := some "AuthenticationError", errCode := some "INVALID_NONCE",
    errMessage := some "Valid session nonce required. Please refresh the page.",
    tokenIssued := false }

/-- Embeds handleGetSession (src/server.ts lines 255-267). REQUIRE_NONCE
is the presence of a configured persistent SESSION_SECRET. The JS guard
`!nonce` is true for a missing header and for the empty string, in which
case consumeNonce is short-circuited and the store untouched. -/
def handleGetSession : Bool → Option String → NonceStore → Nat → ResponseM × NonceStore
  | false, _, s, _ => (tokenResponse, s)
  | true, none, s, _ => (invalidNonceResponse, s)
  | true, some n, s, now =>
    if n = "" then (invalidNonceResponse, s)
    else if (consumeNonce s n now).fst then (tokenResponse, (consumeNonce s n now).snd)
    else (invalidNonceResponse, (consumeNonce s n now).snd)

/-- The 401 missing-token response of checkAuth. -/
def missingTokenResponse : ResponseM :=
  { status := 401, headers := corsHeaders, audio := none,
    errType := some "AuthenticationError", errCode := some "MISSING_TOKEN",
    errMessage := some "Authorization header with Bearer token is required",
    tokenIssued := false }

/-- The 401 invalid-token response of checkAuth. -/
def invalidTokenResponse : ResponseM :=
  { status := 401, headers := corsHeaders, audio := none,
    errType := some "AuthenticationError", errCode := some "INVALID_TOKEN",
    errMessage := some "Invalid or expired session token", tokenIssued := false }

/-- Embeds checkAuth (src/server.ts lines 272-288); tokenValid abstracts
verifySessionToken applied to the secret held by the process. -/
def checkAuth (authHeader : Option String) (tokenValid : String → Bool) : Option ResponseM :=
  if (authHeader.getD "").startsWith "Bearer " then
    if tokenValid ((authHeader.getD "").drop 7) then none else some invalidTokenResponse
  else some missingTokenResponse

/-! ## Metadata, index page, router (src/server.ts lines 231-249, 374-454) -/

/-- Outcome of reading and parsing deepgram.toml. -/
inductive MetadataOutcome
  | ok
  | missingMeta
  | readFailure

/-- Embeds handleMetadata (src/server.ts lines 374-400). -/
def handleMetadata : MetadataOutcome → ResponseM
  | .ok =>
    { status := 200, headers := corsHeaders, audio := none,
      errType := none, errCode := none, errMessage := none, tokenIssued := false }
  | .missingMeta =>
    { status := 500, headers := corsHeaders, audio := none,
      errType := none, errCode := some "INTERNAL_SERVER_ERROR",
      errMessage := some "Missing [meta] section in deepgram.toml", tokenIssued := false }
  | .readFailure =>
    { status := 500, headers := corsHeaders, audio := none,
      errType := none, errCode := some "INTERNAL_SERVER_ERROR",
      errMessage := some "Failed to read metadata from deepgram.toml", tokenIssued := false }

/-- The 404 served when no built frontend template was loaded at startup
(src/server.ts lines 232-234): a plain Response with no headers at all. -/
def notBuiltResponse : ResponseM :=
  { status := 404, headers := [], audio := none, errType := none, errCode := none,
    errMessage := some "Frontend not built. Run make build first.", tokenIssued := false }

/-- The successful index-page response (lines 246-248). -/
def indexResponse : ResponseM :=
  { status := 200, headers := ("Content-Type", "text/html") :: corsHeaders, audio := none,
    errType := none, errCode := none, errMessage := none, tokenIssued := false }

/-- Embeds handleServeIndex (src/server.ts lines 231-249): if a template
was loaded, sweep expired nonces, then register the freshly generated
nonce with expiry now + NONCE_TTL_MS and serve the page. -/
def handleServeIndex (template : Option String) (s : NonceStore) (now : Nat) (fresh : String) :
    ResponseM × NonceStore :=
  match template with
  | none => (notBuiltResponse, s)
  | some _ => (indexResponse, setNonce (sweepNonces s now) fresh (now + NONCE_TTL_MS))

/-- The catch-all 404 of handleRequest (lines 450-453). -/
def notFoundResponse : ResponseM :=
  { status := 404, headers := corsHeaders, audio := none, errType := none, errCode := none,
    errMessage := some "Endpoint not found", tokenIssued := false }

/-- handlePreflight (lines 409-414). -/
def preflightResponse : ResponseM :=
  { status := 204, headers := corsHeaders, audio := none, errType := none, errCode := none,
    errMessage := none, tokenIssued := false }

/-- The request-relevant inputs of one dispatch of handleRequest: method,
path, the two auth-related headers, the parsed body text, the abstract
provider and metadata outcomes, the current time, and the nonce that
generateNonce would produce if the index page is served. -/
structure RequestCtx where
  method : String
  path : String
  sessionHeader : Option String
  authHeader : Option String
  textBody : Option String
  provider : ProviderOutcome
  metadata : MetadataOutcome
  now : Nat
  freshNonce : String

/-- Embeds handleRequest (src/server.ts lines 420-454): the dispatch
chain over method and path, threading the nonce store. -/
def handleRequest (requireNonce : Bool) (template : Option String) (s : NonceStore)
    (tokenValid : String → Bool) (ctx : RequestCtx) : ResponseM × NonceStore :=
  if ctx.method = "OPTIONS" then (preflightResponse, s)
  else if ctx.path = "/" ∨ ctx.path = "/index.html" then
    handleServeIndex template s ctx.now ctx.freshNonce
  else if ctx.method = "GET" ∧ ctx.path = "/api/session" then
    handleGetSession requireNonce ctx.sessionHeader s ctx.now
  else if ctx.method = "POST" ∧ ctx.path = "/api/text-to-speech" then
    match checkAuth ctx.authHeader tokenValid with
    | some e => (e, s)
    | none => (handleSynthesis ctx.textBody ctx.provider, s)
  else if ctx.method = "GET" ∧ ctx.path = "/api/metadata" then
    (handleMetadata ctx.metadata, s)
  else (notFoundResponse, s)

/-- A GET for the index page in a deployment with no built frontend. -/
def ctxGetIndex : RequestCtx :=
  ⟨"GET", "/", none, none, none, .noStream, .ok, 0, "n0"⟩

/-- A POST for the index page, exercising method-independent matching. -/
def ctxPostIndex : RequestCtx :=
  ⟨"POST", "/", none, none, none, .noStream, .ok, 7, "n1"⟩

/-- A metadata request, used to exercise an ordinary routed response. -/
def ctxGetMetadata : RequestCtx :=
  ⟨"GET", "/api/metadata", none, none, none, .noStream, .ok, 0, "n2"⟩

/-! ## Helper lemmas -/

/-- A String has length 0 exactly when it is the empty string. -/
theorem string_length_zero_iff (s : String) : s.length = 0 ↔ s = "" := by
  cases s with
  | mk data =>
    constructor
    · intro h
      have : data = [] := List.length_eq_zero.mp h
      subst this
      rfl
    · intro h
      rw [h]
      rfl

/-- Unpacking a successful lookup into a store entry. -/
theorem lookupNonce_mem {s : NonceStore} {n : String} {e : Nat}
    (h : lookupNonce s n = some e) : ∃ p, p ∈ s ∧ p.fst = n ∧ p.snd = e := by
  unfold lookupNonce at h
  cases hf : s.find? (fun p => p.fst == n) with
  | none => rw [hf] at h; cases h
  | some p₀ =>
    rw [hf] at h
    have hpred := List.find?_some hf
    exact ⟨p₀, List.mem_of_find?_eq_some hf, eq_of_beq (by simpa using hpred), by simpa using h⟩

/-- Erasing only removes entries. -/
theorem mem_eraseNonce {s : NonceStore} {n : String} {p : String × Nat}
    (h : p ∈ eraseNonce s n) : p ∈ s :=
  (List.mem_filter.mp h).1

/-- After erasing n, no entry for n remains. -/
theorem eraseNonce_not_mem {s : NonceStore} {n : String} {p : String × Nat}
    (h : p ∈ eraseNonce s n) : p.fst ≠ n := by
  simpa using (List.mem_filter.mp h).2

/-- Complete case analysis of consumeNonce. -/
theorem consumeNonce_eq (s : NonceStore) (n : String) (now : Nat) :
    (lookupNonce s n = none ∧ consumeNonce s n now = (false, s)) ∨
    (∃ e, lookupNonce s n = some e ∧ e = 0 ∧ consumeNonce s n now = (false, s)) ∨
    (∃ e, lookupNonce s n = some e ∧ e ≠ 0 ∧
      consumeNonce s n now = (decide (now < e), eraseNonce s n)) := by
  unfold consumeNonce
  cases hl : lookupNonce s n with
  | none => exact Or.inl ⟨rfl, rfl⟩
  | some e =>
    by_cases h0 : e = 0
    · refine Or.inr (Or.inl ⟨e, rfl, h0, ?_⟩)
      show (if e = 0 then ((false : Bool), s) else (decide (now < e), eraseNonce s n)) =
        ((false : Bool), s)
      rw [if_pos h0]
    · refine Or.inr (Or.inr ⟨e, rfl, h0, ?_⟩)
      show (if e = 0 then ((false : Bool), s) else (decide (now < e), eraseNonce s n)) =
        (decide (now < e), eraseNonce s n)
      rw [if_neg h0]

/-- A successful consume leaves exactly the erased store. -/
theorem consumeNonce_true_snd {s : NonceStore} {n : String} {now : Nat}
    (h : (consumeNonce s n now).fst = true) :
    (consumeNonce s n now).snd = eraseNonce s n := by
  rcases consumeNonce_eq s n now with ⟨_, he⟩ | ⟨e, _, _, he⟩ | ⟨e, _, _, he⟩
  · rw [he] at h; simp at h
  · rw [he] at h; simp at h
  · rw [he]

/-- A successful consume means the nonce was present, nonzero and unexpired. -/
theorem consumeNonce_fst_true_inv {s : NonceStore} {n : String} {now : Nat}
    (h : (consumeNonce s n now).fst = true) :
    ∃ e, lookupNonce s n = some e ∧ e ≠ 0 ∧ now < e := by
  rcases consumeNonce_eq s n now with ⟨_, he⟩ | ⟨e, _, _, he⟩ | ⟨e, hl, h0, he⟩
  · rw [he] at h; simp at h
  · rw [he] at h; simp at h
  · rw [he] at h
    exact ⟨e, hl, h0, by simpa using h⟩

/-- Present, nonzero expiry: the consume result is the time comparison. -/
theorem consumeNonce_fst_of_lookup {s : NonceStore} {n : String} {now e : Nat}
    (hl : lookupNonce s n = some e) (h0 : e ≠ 0) :
    (consumeNonce s n now).fst = decide (now < e) := by
  unfold consumeNonce
  rw [hl]
  show (if e = 0 then ((false : Bool), s) else (decide (now < e), eraseNonce s n)).fst =
    decide (now < e)
  rw [if_neg h0]

/-- Consuming a nonce all of whose entries are expired fails. -/
theorem consumeNonce_fst_dead {s : NonceStore} {m : String} {t₀ t : Nat}
    (hd : deadAt m t₀ s) (ht : t₀ ≤ t) : (consumeNonce s m t).fst = false := by
  rcases consumeNonce_eq s m t with ⟨_, he⟩ | ⟨e, _, _, he⟩ | ⟨e, hl, _, he⟩
  · rw [he]
  · rw [he]
  · rw [he]
    obtain ⟨p, hmem, hfst, hsnd⟩ := lookupNonce_mem hl
    have hle : e ≤ t₀ := hsnd ▸ hd p hmem hfst
    simpa using Nat.not_lt.mpr (le_trans hle ht)

/-- The store part of a consume only removes entries. -/
theorem consumeNonce_snd_sub {s : NonceStore} {n : String} {now : Nat} {p : String × Nat}
    (h : p ∈ (consumeNonce s n now).snd) : p ∈ s := by
  rcases consumeNonce_eq s n now with ⟨_, he⟩ | ⟨e, _, _, he⟩ | ⟨e, _, _, he⟩
  · rw [he] at h; exact h
  · rw [he] at h; exact h
  · rw [he] at h; exact mem_eraseNonce h

/-- Deadness of a nonce is preserved by any operation that does not
re-register that value. -/
theorem deadAt_applyNonceOp {m : String} {t : Nat} {s : NonceStore} {op : NonceOp}
    (hd : deadAt m t s) (hop : registersNonce m op = false) :
    deadAt m t (applyNonceOp s op) := by
  intro p hp hfst
  cases op with
  | register n now =>
    simp only [applyNonceOp, setNonce] at hp
    rcases List.mem_append.mp hp with h1 | h2
    · exact hd p (mem_eraseNonce h1) hfst
    · have hpn : p = (n, now + NONCE_TTL_MS) := by simpa using h2
      have hne : n ≠ m := by simpa [registersNonce] using hop
      rw [hpn] at hfst
      exact absurd hfst hne
  | sweep now =>
    simp only [applyNonceOp, sweepNonces] at hp
    exact hd p (List.mem_filter.mp hp).1 hfst
  | consume n now =>
    simp only [applyNonceOp] at hp
    exact hd p (consumeNonce_snd_sub hp) hfst

/-- Deadness is preserved by a whole sequence of such operations. -/
theorem deadAt_foldl {m : String} {t : Nat} {ops : List NonceOp} :
    ∀ {s : NonceStore}, deadAt m t s → (∀ op ∈ ops, registersNonce m op = false) →
      deadAt m t (ops.foldl applyNonceOp s) := by
  induction ops with
  | nil => intro s hd _; exact hd
  | cons op ops ih =>
    intro s hd hops
    exact ih (deadAt_applyNonceOp hd (hops op (List.mem_cons_self op ops)))
      (fun o ho => hops o (List.mem_cons_of_mem op ho))

/-- After erasing m, m is dead at every time. -/
theorem deadAt_eraseNonce (s : NonceStore) (m : String) (t : Nat) :
    deadAt m t (eraseNonce s m) := by
  intro p hp hfst
  exact absurd hfst (eraseNonce_not_mem hp)

/-! ## Claim theorems -/

/-- Claim C1, counterexample: the claim says the empty string fails
validation with exactly the message "text cannot be empty", but the JS
falsy guard routes the empty string to the "required" message instead. -/
theorem validateTtsInput_empty_counterexample :
    validateTtsInput (some "") = some "text field is required and must be a string" ∧
    validateTtsInput (some "") ≠ some "text cannot be empty" := by decide

/-- Claim C1 (amended): a string that is non-empty after trimming passes
validation; a non-empty string that trims to empty fails with exactly
"text cannot be empty"; the empty string fails with the "required"
message instead. -/
theorem validateTtsInput_spec (t : String) :
    (jsTrim t ≠ "" → validateTtsInput (some t) = none) ∧
    (t ≠ "" → jsTrim t = "" → validateTtsInput (some t) = some "text cannot be empty") ∧
    validateTtsInput (some "") = some "text field is required and must be a string" := by
  refine ⟨?_, ?_, by decide⟩
  · intro h
    have ht : t ≠ "" := by
      intro h0
      rw [h0] at h
      exact h (by decide)
    show (if t = "" then some "text field is required and must be a string"
      else if (jsTrim t).length = 0 then some "text cannot be empty" else none) = none
    rw [if_neg ht, if_neg (fun hl => h ((string_length_zero_iff _).mp hl))]
  · intro ht h
    show (if t = "" then some "text field is required and must be a string"
      else if (jsTrim t).length = 0 then some "text cannot be empty" else none) =
      some "text cannot be empty"
    rw [if_neg ht, if_pos ((string_length_zero_iff _).mpr h)]

/-- Claim C1 witness: a whitespace-only (non-empty) string fails with
exactly "text cannot be empty". -/
theorem validateTtsInput_spec_witness :
    validateTtsInput (some " ") = some "text cannot be empty" :=
  (validateTtsInput_spec " ").2.1 (by decide) (by decide)

/-- Claim C3: consuming an absent nonce returns false and leaves the
store unchanged; consuming a present nonce with (positive) recorded
expiry deletes it unconditionally and returns true exactly when the
current time is strictly before the expiry. Every expiry the server
stores is creation time + NONCE_TTL_MS, hence positive. -/
theorem consumeNonce_spec (s : NonceStore) (n : String) (now : Nat) :
    (lookupNonce s n = none → consumeNonce s n now = (false, s)) ∧
    (∀ e, lookupNonce s n = some e → 0 < e →
      (consumeNonce s n now).snd = eraseNonce s n ∧
      ((consumeNonce s n now).fst = true ↔ now < e)) := by
  constructor
  · intro h
    rcases consumeNonce_eq s n now with ⟨_, he⟩ | ⟨e, hl, _, _⟩ | ⟨e, hl, _, _⟩
    · exact he
    · rw [h] at hl; cases hl
    · rw [h] at hl; cases hl
  · intro e he hpos
    rcases consumeNonce_eq s n now with ⟨hl, _⟩ | ⟨e', hl, h0, _⟩ | ⟨e', hl, h0, hc⟩
    · rw [he] at hl; cases hl
    · rw [he] at hl
      injection hl with heq
      rw [← heq] at h0
      exact absurd h0 (Nat.pos_iff_ne_zero.mp hpos)
    · rw [he] at hl
      injection hl with heq
      rw [hc, ← heq]
      exact ⟨rfl, by simp⟩

/-- Claim C3 witness: a concrete store with one live nonce. -/
theorem consumeNonce_spec_witness :
    (consumeNonce [("a", 10)] "a" 5).snd = eraseNonce [("a", 10)] "a" ∧
    ((consumeNonce [("a", 10)] "a" 5).fst = true ↔ 5 < 10) :=
  (consumeNonce_spec [("a", 10)] "a" 5).2 10 (by decide) (by decide)

/-- Claim C4: once a consume of nonce m succeeded, every later consume of
m fails, across any sequence of store operations that does not
re-register the same value; and more generally, once every entry for m
is expired (dead), consuming m at any later time fails. -/
theorem nonceSingleUse (s : NonceStore) (m : String) (t₀ t : Nat) (ops : List NonceOp)
    (hops : ∀ op ∈ ops, registersNonce m op = false) (ht : t₀ ≤ t) :
    ((consumeNonce s m t₀).fst = true →
      (consumeNonce (ops.foldl applyNonceOp (consumeNonce s m t₀).snd) m t).fst = false) ∧
    (deadAt m t₀ s → (consumeNonce (ops.foldl applyNonceOp s) m t).fst = false) := by
  constructor
  · intro h
    rw [consumeNonce_true_snd h]
    exact consumeNonce_fst_dead (deadAt_foldl (deadAt_eraseNonce s m t₀) hops) ht
  · intro hd
    exact consumeNonce_fst_dead (deadAt_foldl hd hops) ht

/-- Claim C4 witness: a nonce consumed at time 3 fails again at time 20
after a sweep and the registration of a different nonce. -/
theorem nonceSingleUse_witness :
    (consumeNonce [("a", 10)] "a" 3).fst = true ∧
    (consumeNonce ([NonceOp.sweep 12, NonceOp.register "b" 15].foldl applyNonceOp
      (consumeNonce [("a", 10)] "a" 3).snd) "a" 20).fst = false :=
  ⟨by decide,
    (nonceSingleUse [("a", 10)] "a" 3 20 [NonceOp.sweep 12, NonceOp.register "b" 15]
      (by decide) (by decide)).1 (by decide)⟩

/-- Claim C5: verifySessionToken is a total Boolean function of the
abstract verification outcome: it returns true exactly on success and
false exactly on any failure (malformed token, bad signature, expired),
never propagating the thrown error. -/
theorem verifySessionToken_total (r : Except String Unit) :
    (verifySessionToken r = true ↔ r = Except.ok ()) ∧
    (verifySessionToken r = false ↔ ∃ msg, r = Except.error msg) := by
  cases r with
  | ok u => cases u; simp [verifySessionToken]
  | error m => simp [verifySessionToken]

/-- With valid input, a thrown provider error reaches the catch-block classifier. -/
theorem handleSynthesis_throw_eq (text : Option String) (msg : String)
    (hv : validateTtsInput text = none) :
    handleSynthesis text (.throwErr msg) = classifySynthesisError msg := by
  unfold handleSynthesis
  rw [hv]

/-- With valid input, a missing stream reaches the classifier with the
fixed no-stream message. -/
theorem handleSynthesis_noStream_eq (text : Option String)
    (hv : validateTtsInput text = none) :
    handleSynthesis text .noStream =
      classifySynthesisError "No audio stream returned from Deepgram" := by
  unfold handleSynthesis
  rw [hv]

/-- Prepending to a list preserves the sum of a length decomposition. -/
theorem foldl_add_length (l : List (List Nat)) : ∀ a : Nat,
    l.foldl (fun acc c => acc + c.length) a = a + (l.map List.length).sum := by
  induction l with
  | nil => intro a; simp
  | cons c cs ih =>
    intro a
    simp only [List.foldl_cons, List.map_cons, List.sum_cons]
    rw [ih (a + c.length)]
    omega

/-- The reduce over chunk lengths computes the total length. -/
theorem totalLengthOf_eq_sum (chunks : List (List Nat)) :
    totalLengthOf chunks = (chunks.map List.length).sum := by
  unfold totalLengthOf
  rw [foldl_add_length chunks 0]
  omega

/-- The copy loop, run on a buffer whose tail has exactly the room for
the remaining chunks, writes those chunks after the preserved prefix. -/
theorem concatFill_go : ∀ (cs : List (List Nat)) (pre arr : List Nat),
    arr.length = (cs.map List.length).sum →
    concatFill (pre ++ arr) pre.length cs = pre ++ cs.flatten := by
  intro cs
  induction cs with
  | nil =>
    intro pre arr h
    simp only [List.map_nil, List.sum_nil] at h
    rw [List.length_eq_zero.mp h]
    simp [concatFill]
  | cons c cs ih =>
    intro pre arr h
    simp only [List.map_cons, List.sum_cons] at h
    have hw : writeAt (pre ++ arr) c pre.length = (pre ++ c) ++ arr.drop c.length := by
      unfold writeAt
      rw [List.take_left, List.drop_append]
    have hd : (arr.drop c.length).length = (cs.map List.length).sum := by
      rw [List.length_drop, h]
      omega
    simp only [concatFill]
    rw [hw]
    have hl : pre.length + c.length = (pre ++ c).length := by simp
    rw [hl, ih (pre ++ c) (arr.drop c.length) hd]
    simp

/-- The buffer built by totalLength allocation plus the offset copy loop
is exactly the in-order concatenation of the chunks. -/
theorem audioDataOf_eq_flatten (chunks : List (List Nat)) :
    audioDataOf chunks = chunks.flatten := by
  unfold audioDataOf
  have h := concatFill_go chunks [] (List.replicate (totalLengthOf chunks) 0)
    (by rw [List.length_replicate, totalLengthOf_eq_sum])
  simpa using h

/-- Claim C2, counterexample: a length-matching thrown error yields
status 400 and code TEXT_TOO_LONG, but its error type is ValidationError
rather than the SynthesisError the claim states, because
formatErrorResponse derives the type from the 400 status alone. -/
theorem lengthHeuristic_type_counterexample :
    lengthHeuristic "Text too long" = true ∧
    (handleSynthesis (some "hello") (.throwErr "Text too long")).status = 400 ∧
    (handleSynthesis (some "hello") (.throwErr "Text too long")).errCode =
      some "TEXT_TOO_LONG" ∧
    (handleSynthesis (some "hello") (.throwErr "Text too long")).errType ≠
      some "SynthesisError" ∧
    (handleSynthesis (some "hello") (.throwErr "Text too long")).errType =
      some "ValidationError" := by decide

/-- Claim C2 (amended): for every thrown synthesis error whose message
case-insensitively contains "too long", "length", "limit" or "exceed",
the handler returns HTTP 400 with code TEXT_TOO_LONG and error type
ValidationError (not SynthesisError). -/
theorem handleSynthesis_length_heuristic (text : Option String) (msg : String)
    (hv : validateTtsInput text = none) (hh : lengthHeuristic msg = true) :
    (handleSynthesis text (.throwErr msg)).status = 400 ∧
    (handleSynthesis text (.throwErr msg)).errType = some "ValidationError" ∧
    (handleSynthesis text (.throwErr msg)).errCode = some "TEXT_TOO_LONG" := by
  rw [handleSynthesis_throw_eq text msg hv]
  unfold classifySynthesisError
  rw [if_pos hh]
  exact ⟨rfl, rfl, rfl⟩

/-- Claim C2 witness: a concrete length-matching message. -/
theorem handleSynthesis_length_heuristic_witness :
    (handleSynthesis (some "hi") (.throwErr "request exceeds limit")).status = 400 ∧
    (handleSynthesis (some "hi") (.throwErr "request exceeds limit")).errType =
      some "ValidationError" ∧
    (handleSynthesis (some "hi") (.throwErr "request exceeds limit")).errCode =
      some "TEXT_TOO_LONG" :=
  handleSynthesis_length_heuristic (some "hi") "request exceeds limit" (by decide) (by decide)

/-- Claim C8: when the provider returns no stream for a valid request,
the handler responds 500 with type SynthesisError and code
SYNTHESIS_FAILED; the fixed no-stream message does not match the
text-length heuristic. -/
theorem handleSynthesis_no_stream (text : Option String)
    (hv : validateTtsInput text = none) :
    lengthHeuristic "No audio stream returned from Deepgram" = false ∧
    (handleSynthesis text .noStream).status = 500 ∧
    (handleSynthesis text .noStream).errType = some "SynthesisError" ∧
    (handleSynthesis text .noStream).errCode = some "SYNTHESIS_FAILED" := by
  rw [handleSynthesis_noStream_eq text hv]
  decide

/-- Claim C8 witness: a concrete valid request with no stream. -/
theorem handleSynthesis_no_stream_witness :
    lengthHeuristic "No audio stream returned from Deepgram" = false ∧
    (handleSynthesis (some "hello") .noStream).status = 500 ∧
    (handleSynthesis (some "hello") .noStream).errType = some "SynthesisError" ∧
    (handleSynthesis (some "hello") .noStream).errCode = some "SYNTHESIS_FAILED" :=
  handleSynthesis_no_stream (some "hello") (by decide)

/-- Claim C7: on a valid request with a streamed chunk sequence, the
response body is exactly the in-order concatenation of the chunks, its
length is the sum of the chunk lengths, the status is 200 and the
content-type header is application/octet-stream. -/
theorem handleSynthesis_stream_concat (text : Option String) (chunks : List (List Nat))
    (hv : validateTtsInput text = none) :
    (handleSynthesis text (.stream chunks)).audio = some chunks.flatten ∧
    (handleSynthesis text (.stream chunks)).audio = some (audioDataOf chunks) ∧
    (audioDataOf chunks).length = (chunks.map List.length).sum ∧
    ("content-type", "application/octet-stream") ∈
      (handleSynthesis text (.stream chunks)).headers ∧
    (handleSynthesis text (.stream chunks)).status = 200 := by
  unfold handleSynthesis
  rw [hv]
  refine ⟨congrArg some (audioDataOf_eq_flatten chunks), rfl, ?_, ?_, rfl⟩
  · rw [audioDataOf_eq_flatten]
    exact List.length_flatten chunks
  · exact List.mem_cons_self _ _

/-- Claim C7 witness: two concrete chunks concatenate without gaps. -/
theorem handleSynthesis_stream_concat_witness :
    (handleSynthesis (some "hello") (.stream [[1, 2], [3, 4, 5]])).audio =
      some [1, 2, 3, 4, 5] ∧
    (handleSynthesis (some "hello") (.stream [[1, 2], [3, 4, 5]])).status = 200 := by
  have h := handleSynthesis_stream_concat (some "hello") [[1, 2], [3, 4, 5]] (by decide)
  exact ⟨h.1.trans (by decide), h.2.2.2.2⟩

/-- Searching past a list in which nothing matches. -/
theorem find?_append_none {α : Type} (q : α → Bool) {A : List α} (B : List α)
    (h : A.find? q = none) : (A ++ B).find? q = B.find? q := by
  induction A with
  | nil => rfl
  | cons a A ih =>
    by_cases hq : q a = true
    · rw [List.find?_cons_of_pos A hq] at h
      cases h
    · rw [List.find?_cons_of_neg A hq] at h
      rw [List.cons_append, List.find?_cons_of_neg (A ++ B) hq]
      exact ih h

/-- After erasing n, looking for n finds nothing. -/
theorem find?_eraseNonce (s : NonceStore) (n : String) :
    (eraseNonce s n).find? (fun p => p.fst == n) = none := by
  rw [List.find?_eq_none]
  intro p hp
  simpa using eraseNonce_not_mem hp

/-- Map.set followed by Map.get returns the stored expiry. -/
theorem lookupNonce_setNonce (s : NonceStore) (n : String) (e : Nat) :
    lookupNonce (setNonce s n e) n = some e := by
  unfold lookupNonce setNonce
  rw [find?_append_none _ _ (find?_eraseNonce s n)]
  rw [List.find?_cons_of_pos [] (by simp)]
  rfl

/-- Claim C6: with nonce enforcement on, a token is issued exactly when
the request presents a header value that is a stored (hence
previously-generated, unconsumed) nonce whose expiry lies strictly in
the future; every refusal is the 403 AuthenticationError response; with
enforcement off, issuance is unconditional. The well-formedness
hypothesis is the invariant of every reachable store: generated nonces
are non-empty and expiries are creation time + NONCE_TTL_MS. -/
theorem handleGetSession_spec (header : Option String) (s : NonceStore) (now : Nat)
    (hwf : wellFormedStore s) :
    ((handleGetSession true header s now).fst = tokenResponse ↔
      ∃ n e, header = some n ∧ lookupNonce s n = some e ∧ now < e) ∧
    ((handleGetSession true header s now).fst ≠ tokenResponse →
      (handleGetSession true header s now).fst = invalidNonceResponse) ∧
    (∀ h2 : Option String, (handleGetSession false h2 s now).fst = tokenResponse) := by
  have hne : invalidNonceResponse ≠ tokenResponse := by decide
  refine ⟨?_, ?_, fun h2 => rfl⟩
  · cases header with
    | none =>
      constructor
      · intro h
        exact absurd h hne
      · rintro ⟨n, e, hn, -, -⟩
        cases hn
    | some n =>
      by_cases hn : n = ""
      · subst hn
        constructor
        · intro h
          exact absurd h hne
        · rintro ⟨n', e, hn', hl, -⟩
          injection hn' with hn''
          subst hn''
          obtain ⟨p, hp, hpf, -⟩ := lookupNonce_mem hl
          exact absurd hpf (hwf p hp).1
      · simp only [handleGetSession]
        rw [if_neg hn]
        by_cases hc : (consumeNonce s n now).fst = true
        · rw [if_pos hc]
          constructor
          · intro _
            obtain ⟨e, hl, -, hlt⟩ := consumeNonce_fst_true_inv hc
            exact ⟨n, e, rfl, hl, hlt⟩
          · intro _
            rfl
        · rw [if_neg hc]
          constructor
          · intro h
            exact absurd h hne
          · rintro ⟨n', e, hn', hl, hlt⟩
            injection hn' with hn''
            subst hn''
            obtain ⟨p, hp, -, hpsnd⟩ := lookupNonce_mem hl
            have h0 : e ≠ 0 := by
              have := (hwf p hp).2
              omega
            exact absurd ((consumeNonce_fst_of_lookup hl h0).trans (decide_eq_true hlt)) hc
  · cases header with
    | none =>
      intro _
      rfl
    | some n =>
      by_cases hn : n = ""
      · intro _
        subst hn
        rfl
      · by_cases hc : (consumeNonce s n now).fst = true
        · intro h
          exfalso
          apply h
          simp only [handleGetSession]
          rw [if_neg hn, if_pos hc]
        · intro _
          simp only [handleGetSession]
          rw [if_neg hn, if_neg hc]

/-- Claim C6 witness: a live stored nonce yields a token; with no
persistent secret, issuance is open. -/
theorem handleGetSession_spec_witness :
    (handleGetSession true (some "a") [("a", 100)] 5).fst = tokenResponse ∧
    (handleGetSession false none [("a", 100)] 5).fst = tokenResponse :=
  ⟨(handleGetSession_spec (some "a") [("a", 100)] 5
        (by unfold wellFormedStore; decide)).1.mpr
      ⟨"a", 100, rfl, by decide, by decide⟩,
    (handleGetSession_spec (some "a") [("a", 100)] 5
        (by unfold wellFormedStore; decide)).2.2 none⟩

/-- A response whose headers are exactly the CORS headers carries CORS. -/
theorem hasCors_of_headers_eq (r : ResponseM) (h : r.headers = corsHeaders) :
    hasCors r = true := by
  unfold hasCors
  rw [h]
  decide

/-- A response whose headers extend the CORS headers carries CORS. -/
theorem hasCors_of_headers_cons (r : ResponseM) (x : String × String)
    (h : r.headers = x :: corsHeaders) : hasCors r = true := by
  unfold hasCors
  rw [h, List.all_eq_true]
  intro p hp
  simp only [decide_eq_true_eq]
  exact List.mem_cons_of_mem x hp

/-- Both classifier outcomes are built by formatErrorResponse, hence
carry CORS headers. -/
theorem hasCors_classify (msg : String) : hasCors (classifySynthesisError msg) = true := by
  unfold classifySynthesisError
  by_cases h : lengthHeuristic msg = true
  · rw [if_pos h]
    exact hasCors_of_headers_eq _ rfl
  · rw [if_neg h]
    exact hasCors_of_headers_eq _ rfl

/-- Every synthesis response carries CORS headers. -/
theorem hasCors_handleSynthesis (text : Option String) (provider : ProviderOutcome) :
    hasCors (handleSynthesis text provider) = true := by
  unfold handleSynthesis
  cases hv : validateTtsInput text with
  | some m => exact hasCors_of_headers_eq _ rfl
  | none =>
    cases provider with
    | stream chunks => exact hasCors_of_headers_cons _ _ rfl
    | noStream => exact hasCors_classify _
    | throwErr m => exact hasCors_classify _

/-- Session issuance always answers with one of its two fixed responses. -/
theorem handleGetSession_fst_cases (rq : Bool) (header : Option String) (s : NonceStore)
    (now : Nat) :
    (handleGetSession rq header s now).fst = tokenResponse ∨
    (handleGetSession rq header s now).fst = invalidNonceResponse := by
  cases rq with
  | false => exact Or.inl rfl
  | true =>
    cases header with
    | none => exact Or.inr rfl
    | some n =>
      by_cases hn : n = ""
      · subst hn
        exact Or.inr rfl
      · simp only [handleGetSession]
        rw [if_neg hn]
        by_cases hc : (consumeNonce s n now).fst = true
        · rw [if_pos hc]
          exact Or.inl rfl
        · rw [if_neg hc]
          exact Or.inr rfl

/-- A checkAuth refusal is one of its two fixed 401 responses. -/
theorem checkAuth_some (a : Option String) (tv : String → Bool) (r : ResponseM)
    (h : checkAuth a tv = some r) :
    r = missingTokenResponse ∨ r = invalidTokenResponse := by
  unfold checkAuth at h
  by_cases hs : (a.getD "").startsWith "Bearer " = true
  · rw [if_pos hs] at h
    by_cases hv : tv ((a.getD "").drop 7) = true
    · rw [if_pos hv] at h
      cases h
    · rw [if_neg hv] at h
      injection h with h'
      exact Or.inr h'.symm
  · rw [if_neg hs] at h
    injection h with h'
    exact Or.inl h'.symm

/-- Claim C9, counterexample: a non-OPTIONS request for the index page
in a deployment with no built frontend receives the plain 404 response,
which carries no CORS headers at all. -/
theorem handleRequest_cors_counterexample :
    ctxGetIndex.method ≠ "OPTIONS" ∧
    hasCors (handleRequest false none [] (fun _ => false) ctxGetIndex).fst = false := by decide

/-- Claim C9 (amended): every non-preflight response of the router
carries the CORS headers, except the "Frontend not built" 404 served for
the index paths when no frontend template was loaded at startup. -/
theorem handleRequest_cors (requireNonce : Bool) (template : Option String) (s : NonceStore)
    (tokenValid : String → Bool) (ctx : RequestCtx) (hm : ctx.method ≠ "OPTIONS") :
    hasCors (handleRequest requireNonce template s tokenValid ctx).fst = true ∨
    ((ctx.path = "/" ∨ ctx.path = "/index.html") ∧ template = none ∧
      (handleRequest requireNonce template s tokenValid ctx).fst = notBuiltResponse) := by
  unfold handleRequest
  rw [if_neg hm]
  by_cases hp : ctx.path = "/" ∨ ctx.path = "/index.html"
  · rw [if_pos hp]
    cases template with
    | none => exact Or.inr ⟨hp, rfl, rfl⟩
    | some html => exact Or.inl (hasCors_of_headers_cons _ _ rfl)
  · rw [if_neg hp]
    by_cases h3 : ctx.method = "GET" ∧ ctx.path = "/api/session"
    · rw [if_pos h3]
      left
      rcases handleGetSession_fst_cases requireNonce ctx.sessionHeader s ctx.now with h | h <;>
        rw [h] <;> decide
    · rw [if_neg h3]
      by_cases h4 : ctx.method = "POST" ∧ ctx.path = "/api/text-to-speech"
      · rw [if_pos h4]
        cases hca : checkAuth ctx.authHeader tokenValid with
        | some e =>
          left
          rcases checkAuth_some ctx.authHeader tokenValid e hca with h | h <;>
            rw [h] <;> exact hasCors_of_headers_eq _ rfl
        | none =>
          left
          exact hasCors_handleSynthesis ctx.textBody ctx.provider
      · rw [if_neg h4]
        by_cases h5 : ctx.method = "GET" ∧ ctx.path = "/api/metadata"
        · rw [if_pos h5]
          left
          cases hmd : ctx.metadata <;> exact hasCors_of_headers_eq _ rfl
        · rw [if_neg h5]
          left
          exact hasCors_of_headers_eq _ rfl

/-- Claim C9 witness: an ordinary routed request, with a built frontend,
gets a CORS-carrying response. -/
theorem handleRequest_cors_witness :
    hasCors (handleRequest false (some "page") [] (fun _ => false) ctxGetMetadata).fst = true ∨
    ((ctxGetMetadata.path = "/" ∨ ctxGetMetadata.path = "/index.html") ∧
      (some "page" : Option String) = none ∧
      (handleRequest false (some "page") [] (fun _ => false) ctxGetMetadata).fst =
        notBuiltResponse) :=
  handleRequest_cors false (some "page") [] (fun _ => false) ctxGetMetadata (by decide)

/-- Claim C10, counterexample: a POST to "/" is indeed routed to the
index handler regardless of method, but with no built frontend template
the router answers 404, contradicting "never returning 404". -/
theorem index_route_404_counterexample :
    ctxPostIndex.method = "POST" ∧ ctxPostIndex.path = "/" ∧
    ctxPostIndex.method ≠ "OPTIONS" ∧
    (handleRequest false none [] (fun _ => false) ctxPostIndex).fst.status = 404 := by decide

/-- Claim C10 (amended): for every non-OPTIONS request whose path is "/"
or "/index.html", whatever the method, the router dispatches to the
index handler; when the built index template is available it serves the
page (status 200, neither 404 nor 405) and registers the freshly minted
nonce with expiry now + NONCE_TTL_MS after sweeping expired ones. -/
theorem index_route_any_method (requireNonce : Bool) (template : Option String) (html : String)
    (s : NonceStore) (tokenValid : String → Bool) (ctx : RequestCtx)
    (hm : ctx.method ≠ "OPTIONS") (hp : ctx.path = "/" ∨ ctx.path = "/index.html")
    (ht : template = some html) :
    (handleRequest requireNonce template s tokenValid ctx).fst = indexResponse ∧
    (handleRequest requireNonce template s tokenValid ctx).snd =
      setNonce (sweepNonces s ctx.now) ctx.freshNonce (ctx.now + NONCE_TTL_MS) ∧
    lookupNonce (handleRequest requireNonce template s tokenValid ctx).snd ctx.freshNonce =
      some (ctx.now + NONCE_TTL_MS) ∧
    (handleRequest requireNonce template s tokenValid ctx).fst.status = 200 ∧
    (handleRequest requireNonce template s tokenValid ctx).fst.status ≠ 404 ∧
    (handleRequest requireNonce template s tokenValid ctx).fst.status ≠ 405 := by
  subst ht
  unfold handleRequest
  rw [if_neg hm, if_pos hp]
  refine ⟨rfl, rfl, lookupNonce_setNonce _ _ _, rfl, ?_, ?_⟩
  · show indexResponse.status ≠ 404
    decide
  · show indexResponse.status ≠ 405
    decide

/-- Claim C10 witness: a POST to "/" with a built template serves the
index page and registers the fresh nonce. -/
theorem index_route_any_method_witness :
    (handleRequest false (some "page") [] (fun _ => false) ctxPostIndex).fst = indexResponse ∧
    (handleRequest false (some "page") [] (fun _ => false) ctxPostIndex).snd =
      setNonce (sweepNonces [] ctxPostIndex.now) ctxPostIndex.freshNonce
        (ctxPostIndex.now + NONCE_TTL_MS) ∧
    lookupNonce (handleRequest false (some "page") [] (fun _ => false) ctxPostIndex).snd
      ctxPostIndex.freshNonce = some (ctxPostIndex.now + NONCE_TTL_MS) ∧
    (handleRequest false (some "page") [] (fun _ => false) ctxPostIndex).fst.status = 200 ∧
    (handleRequest false (some "page") [] (fun _ => false) ctxPostIndex).fst.status ≠ 404 ∧
    (handleRequest false (some "page") [] (fun _ => false) ctxPostIndex).fst.status ≠ 405 :=
  index_route_any_method false (some "page") "page" [] (fun _ => false) ctxPostIndex
    (by decide) (Or.inl rfl) rfl

end DenoTts
